import Mathlib

/-!
Verification development for the `apify_haystack` dataset-loading components
(`src/apify_haystack/apify_dataset.py`).

The Python code is shallowly embedded:

* a Python `dict` is an association list `PyDict V := List (String × V)`;
  `d.get(k)` is `dictLookup`, the PEP-584 union `d1 | d2` (right operand's
  values win on key collisions) is `dictUnion`;
* a nullable dict (`dict | None`) is `Option (PyDict V)`; Python truthiness
  of such a value (`None` and `{}` are falsy) is `pyTruthy`, and the Python
  `a or b` expression on such values is `pyOr`;
* external effects (the remote actor/task trigger and the dataset fetch) are
  oracle functions passed as parameters; the request issued to the dataset
  endpoint is reified as a `DatasetRequest` value so that the `clean` flag
  the code passes is observable.
-/

namespace ApifyHaystack

/-- A Python dictionary with string keys, modelled as an association list
(first entry with a given key is its binding). -/
abbrev PyDict (V : Type) : Type := List (String × V)

/-- Python `d.get(k)` / `d[k]` lookup: the first binding of `k`, if any. -/
def dictLookup {V : Type} : PyDict V → String → Option V
  | [], _ => none
  | (k1, v1) :: rest, k => if k1 = k then some v1 else dictLookup rest k

/-- Helper for `dictUnion`: an entry of the left operand, with its value
replaced by the right operand's value when the right operand also binds the
key (PEP 584: in `d1 | d2` the values of `d2` take priority). -/
def overrideEntry {V : Type} (d2 : PyDict V) (p : String × V) : String × V :=
  match dictLookup d2 p.1 with
  | some v => (p.1, v)
  | none => p

/-- Python dict union `d1 | d2` (PEP 584): the keys of `d1` in order, each
bound to `d2`'s value when `d2` also defines the key, followed by the
entries of `d2` whose keys `d1` does not define. -/
def dictUnion {V : Type} (d1 d2 : PyDict V) : PyDict V :=
  d1.map (overrideEntry d2) ++ d2.filter (fun p => (dictLookup d1 p.1).isNone)

/-- Python truthiness of an optional dict: `None` and `{}` are falsy. -/
def pyTruthy {V : Type} : Option (PyDict V) → Bool
  | none => false
  | some d => !d.isEmpty

/-- Python `a or b` on optional dicts: `a` if truthy, else `b`. -/
def pyOr {V : Type} (a b : Option (PyDict V)) : Option (PyDict V) :=
  if pyTruthy a then a else b

/-- `_merge_inputs` from `apify_dataset.py`:
`if input1 and input2: return input1 | input2` and otherwise
`return input1 or input2`. -/
def mergeInputs {V : Type} : Option (PyDict V) → Option (PyDict V) → Option (PyDict V)
  | some d1, some d2 =>
      if !d1.isEmpty && !d2.isEmpty then some (dictUnion d1 d2)
      else pyOr (some d1) (some d2)
  | i1, i2 => pyOr i1 i2

/-- Helper: a Bool whose negation is `false` is `true`. -/
theorem bnot_eq_false {b : Bool} (h : (!b) = false) : b = true := by
  cases b with
  | true => rfl
  | false => simp at h

/-! Lookup lemmas about `dictUnion`. -/

theorem dictLookup_append {V : Type} (a b : PyDict V) (k : String) :
    dictLookup (a ++ b) k =
      match dictLookup a k with
      | some v => some v
      | none => dictLookup b k := by
  induction a with
  | nil => simp [dictLookup]
  | cons p rest ih =>
      obtain ⟨k1, v1⟩ := p
      by_cases h : k1 = k <;> simp [dictLookup, h, ih]

theorem dictLookup_map_override {V : Type} (d1 d2 : PyDict V) (k : String) :
    dictLookup (d1.map (overrideEntry d2)) k =
      match dictLookup d1 k with
      | none => none
      | some w =>
          match dictLookup d2 k with
          | some v => some v
          | none => some w := by
  induction d1 with
  | nil => simp [dictLookup]
  | cons p rest ih =>
      obtain ⟨k1, v1⟩ := p
      by_cases h : k1 = k
      · subst h
        rcases h2 : dictLookup d2 k1 with _ | v <;>
          simp [dictLookup, overrideEntry, h2]
      · rcases h2 : dictLookup d2 k1 with _ | v <;>
          simp [dictLookup, overrideEntry, h2, h, ih]

theorem dictLookup_filter_isNone {V : Type} (d1 d : PyDict V) (k : String) :
    dictLookup (d.filter (fun p => (dictLookup d1 p.1).isNone)) k =
      if (dictLookup d1 k).isNone then dictLookup d k else none := by
  induction d with
  | nil => simp [dictLookup]
  | cons p rest ih =>
      obtain ⟨k1, v1⟩ := p
      by_cases h : k1 = k
      · subst h
        rcases h1 : (dictLookup d1 k1).isNone with _ | _ <;>
          simp [dictLookup, List.filter, h1, ih]
      · rcases h1 : (dictLookup d1 k1).isNone with _ | _ <;>
          simp [dictLookup, List.filter, h1, ih, h]

/-- Lookup in the Python union `d1 | d2`: the right operand's value wins
when both define the key, otherwise the left operand's binding is kept. -/
theorem dictLookup_dictUnion {V : Type} (d1 d2 : PyDict V) (k : String) :
    dictLookup (dictUnion d1 d2) k =
      match dictLookup d2 k with
      | some v => some v
      | none => dictLookup d1 k := by
  unfold dictUnion
  rw [dictLookup_append, dictLookup_map_override, dictLookup_filter_isNone]
  rcases h1 : dictLookup d1 k with _ | w <;>
    rcases h2 : dictLookup d2 k with _ | v <;> simp [h1, h2]

theorem dictUnion_ne_nil {V : Type} (d1 d2 : PyDict V) (h : d1 ≠ []) :
    dictUnion d1 d2 ≠ [] := by
  cases d1 with
  | nil => exact absurd rfl h
  | cons p rest => simp [dictUnion]

/-! Credential resolution and client construction
(`ApifyDatasetFromActorCall.__init__` / `ApifyDatasetFromTaskCall.__init__`). -/

/-- Python truthiness of an optional string: `None` and `""` are falsy. -/
def pyStrTruthy : Option String → Bool
  | none => false
  | some s => !s.isEmpty

/-- Python `a or b` on optional strings: `a` if truthy, else `b`. -/
def pyStrOr (a b : Option String) : Option String :=
  if pyStrTruthy a then a else b

/-- The httpx client optionally exposed by the vendored remote client, with
the `headers["user-agent"]` value it carries. -/
structure HttpxClient where
  userAgent : String
deriving DecidableEq

/-- State of the vendored remote client after construction: the token it was
constructed with and its optionally exposed httpx client. -/
structure ApifyClient where
  token : String
  httpxClient : Option HttpxClient
deriving DecidableEq

/-- User-agent attribution step shared by all three constructors:
`if httpx_client := getattr(self.client.http_client, "httpx_client", None):`
append `"; "` plus the marker to the user-agent header, else do nothing.
The marker constant (`HAYSTACK_ATTRIBUTE_USER_AGENT`, defined outside the
embedded module) is passed as a parameter. -/
def patchUserAgent (marker : String) (c : ApifyClient) : ApifyClient :=
  match c.httpxClient with
  | none => c
  | some h => ⟨c.token, some ⟨h.userAgent ++ "; " ++ marker⟩⟩

/-- Errors raised by the loaders (all `ValueError` in the Python source),
tagged with the offending actor/task identifier where the source includes
one in the message. -/
inductive ApifyError where
  | configError (msg : String)
  | noResponse (id : String)
  | noDataset (id : String)
deriving DecidableEq

/-- Message of the missing-token `ValueError` raised by both constructors. -/
def tokenNotFoundMsg : String :=
  "Apify API token not found. Please provide Apify API token when initializing ApifyDatasetCall, or set the environment variable APIFY_API_TOKEN."

/-- Message of the missing-input `ValueError` raised by `ApifyDatasetFromActorCall.run`. -/
def runInputMissingMsg : String :=
  "Please provide the run_input either in the constructor or in the run method."

/-- Message of the missing-input `ValueError` raised by `ApifyDatasetFromTaskCall.run`. -/
def taskInputMissingMsg : String :=
  "Please provide the task_input either in the constructor or in the run method."

/-- Credential step of `ApifyDatasetFromActorCall.__init__`:
`if not (apify_api_token := apify_api_token or os.getenv("APIFY_API_TOKEN")): raise`,
else construct the client (`mkClient` is the external `ApifyClient` constructor,
`envToken` the value of the environment variable) and patch its user-agent.
An `.error` result contains no client: none was constructed. -/
def initActorCall (marker : String) (apify_api_token envToken : Option String)
    (mkClient : String → ApifyClient) : Except ApifyError ApifyClient :=
  match pyStrOr apify_api_token envToken with
  | none => .error (.configError tokenNotFoundMsg)
  | some t =>
      if t.isEmpty then .error (.configError tokenNotFoundMsg)
      else .ok (patchUserAgent marker (mkClient t))

/-- Credential step of `ApifyDatasetFromTaskCall.__init__`: the source
duplicates the actor-variant code verbatim. -/
def initTaskCall (marker : String) (apify_api_token envToken : Option String)
    (mkClient : String → ApifyClient) : Except ApifyError ApifyClient :=
  match pyStrOr apify_api_token envToken with
  | none => .error (.configError tokenNotFoundMsg)
  | some t =>
      if t.isEmpty then .error (.configError tokenNotFoundMsg)
      else .ok (patchUserAgent marker (mkClient t))

/-! Run entry: input validation and the remote trigger call. -/

/-- First action of `ApifyDatasetFromActorCall.run`: either the
missing-input `ValueError` or the remote actor call with the input
actually passed as `run_input=`. -/
inductive ActorRunStep (V : Type) where
  | configError
  | callActor (run_input : PyDict V)
deriving DecidableEq

/-- First action of `ApifyDatasetFromTaskCall.run`; the input passed as
`task_input=` to the remote call is optional because the source passes
`self.task_input`, which may be `None`. -/
inductive TaskRunStep (V : Type) where
  | configError
  | callTask (task_input : Option (PyDict V))
deriving DecidableEq

/-- Entry of `ApifyDatasetFromActorCall.run`:
`if not (run_input := _merge_inputs(run_input, self.run_input)): raise`,
else call the actor with the merged `run_input`. -/
def actorRunFirstStep {V : Type} (run_input ctor_run_input : Option (PyDict V)) :
    ActorRunStep V :=
  match mergeInputs run_input ctor_run_input with
  | none => .configError
  | some d => if d.isEmpty then .configError else .callActor d

/-- Entry of `ApifyDatasetFromTaskCall.run`:
`task_input = task_input or self.task_input; if not task_input: raise`,
then `self.client.task(self.task_id).call(task_input=self.task_input, ...)` —
note the source passes the constructor-time `self.task_input`, not the
merged local `task_input`. -/
def taskRunFirstStep {V : Type} (task_input ctor_task_input : Option (PyDict V)) :
    TaskRunStep V :=
  if pyTruthy (pyOr task_input ctor_task_input) then .callTask ctor_task_input
  else .configError

/-! Response validation, shared verbatim by both `run` methods. -/

/-- Outcome of validating the trigger-call response: the two terminal
errors, or the dataset load with the extracted `defaultDatasetId`. -/
inductive ResponseStep where
  | noResponseError
  | noDatasetError
  | loadDataset (dataset_id : String)
deriving DecidableEq

/-- Whether a `ResponseStep` proceeds to constructing a `DatasetLoader`. -/
def isLoadStep : ResponseStep → Bool
  | .loadDataset _ => true
  | _ => false

/-- Response-validation code of both `run` methods:
`if not actor_call: raise "No response found..."`, then
`if not (dataset_id := actor_call.get("defaultDatasetId")): raise "No dataset found..."`,
else construct the loader for `dataset_id`. The response is an optional
dict of string fields; Python truthiness makes `None`, `{}` and `""` falsy. -/
def handleRunResponse (actor_call : Option (PyDict String)) : ResponseStep :=
  match actor_call with
  | none => .noResponseError
  | some r =>
      if r.isEmpty then .noResponseError
      else
        match dictLookup r "defaultDatasetId" with
        | none => .noDatasetError
        | some s => if s.isEmpty then .noDatasetError else .loadDataset s

/-- Lookup of a field in an optional response dict. -/
def respLookup (resp : Option (PyDict String)) (k : String) : Option String :=
  match resp with
  | none => none
  | some r => dictLookup r k

/-! The dataset loader (`ApifyDatasetLoader`). -/

/-- The request `ApifyDatasetLoader.run` issues:
`self.client.dataset(self.dataset_id).list_items(clean=True)`. -/
structure DatasetRequest where
  dataset_id : String
  clean : Bool
deriving DecidableEq

/-- Result of `ApifyDatasetLoader.run`: the dataset request it issued and
the returned `documents` list. -/
structure LoaderRunResult (Doc : Type) where
  request : DatasetRequest
  documents : List Doc

/-- `ApifyDatasetLoader.run`: fetch the dataset items with `clean=True`
(`fetch` is the external platform returning the dataset's ordered records)
and return `list(map(self.dataset_mapping_function, dataset_items))`. -/
def datasetLoaderRun {Item Doc : Type} (fetch : DatasetRequest → List Item)
    (dataset_id : String) (dataset_mapping_function : Item → Doc) :
    LoaderRunResult Doc :=
  let req : DatasetRequest := ⟨dataset_id, true⟩
  ⟨req, (fetch req).map dataset_mapping_function⟩

/-! Full `run` pipelines of the actor and task variants. -/

/-- Body of `ApifyDatasetFromActorCall.run`: merge and validate the input,
trigger the actor (`callActor` is the external `client.actor(...).call`),
validate the response, then delegate to a fresh `ApifyDatasetLoader`. -/
def actorCallRun {V Item Doc : Type} (actor_id : String)
    (run_input ctor_run_input : Option (PyDict V))
    (callActor : PyDict V → Option (PyDict String))
    (fetch : DatasetRequest → List Item) (f : Item → Doc) :
    Except ApifyError (LoaderRunResult Doc) :=
  match actorRunFirstStep run_input ctor_run_input with
  | .configError => .error (.configError runInputMissingMsg)
  | .callActor input =>
      match handleRunResponse (callActor input) with
      | .noResponseError => .error (.noResponse actor_id)
      | .noDatasetError => .error (.noDataset actor_id)
      | .loadDataset dataset_id => .ok (datasetLoaderRun fetch dataset_id f)

/-- Body of `ApifyDatasetFromTaskCall.run`: validate `task_input or
self.task_input`, trigger the task with `self.task_input` (as the source
does), validate the response, then delegate to a fresh `ApifyDatasetLoader`. -/
def taskCallRun {V Item Doc : Type} (task_id : String)
    (task_input ctor_task_input : Option (PyDict V))
    (callTask : Option (PyDict V) → Option (PyDict String))
    (fetch : DatasetRequest → List Item) (f : Item → Doc) :
    Except ApifyError (LoaderRunResult Doc) :=
  match taskRunFirstStep task_input ctor_task_input with
  | .configError => .error (.configError taskInputMissingMsg)
  | .callTask input =>
      match handleRunResponse (callTask input) with
      | .noResponseError => .error (.noResponse task_id)
      | .noDatasetError => .error (.noDataset task_id)
      | .loadDataset dataset_id => .ok (datasetLoaderRun fetch dataset_id f)

/-! Claim theorems. -/

/-- C1, counterexample: the claim says the call-time value wins where both
inputs define the same key, but `_merge_inputs(run_input, self.run_input)`
returns `run_input | self.run_input`, in which the right (constructor-time)
operand's values win: with call-time input mapping the key to `2` and
constructor-time input mapping it to `1`, the effective run input passed to
the actor call maps the key to the constructor-time `1`, not the call-time
`2`. -/
theorem C1_call_time_wins_counterexample :
    actorRunFirstStep (some [("maxPages", 2)]) (some [("maxPages", (1 : Nat))])
        = ActorRunStep.callActor [("maxPages", 1)] ∧
      dictLookup [("maxPages", (1 : Nat))] "maxPages" = some 1 ∧ (1 : Nat) ≠ 2 := by
  decide

/-- C1, amended: for non-empty constructor-time and call-time inputs, the
effective run input used by `ApifyDatasetFromActorCall.run` is their Python
union, in which the constructor-time value wins wherever both define a key
and the call-time binding survives only where the constructor-time input
does not define the key: its lookup agrees with lookup in the
constructor-time input with the call-time input as fallback. -/
theorem C1_merge_ctor_wins {V : Type} (call ctor : PyDict V)
    (h1 : call ≠ []) (h2 : ctor ≠ []) (k : String) :
    actorRunFirstStep (some call) (some ctor) = ActorRunStep.callActor (dictUnion call ctor) ∧
    dictLookup (dictUnion call ctor) k = dictLookup (ctor ++ call) k := by
  constructor
  · have hc : call.isEmpty = false := by
      cases call with
      | nil => exact absurd rfl h1
      | cons a t => rfl
    have hd : ctor.isEmpty = false := by
      cases ctor with
      | nil => exact absurd rfl h2
      | cons a t => rfl
    have hu : (dictUnion call ctor).isEmpty = false := by
      have hne := dictUnion_ne_nil call ctor h1
      cases hU : dictUnion call ctor with
      | nil => exact absurd hU hne
      | cons a t => rfl
    simp [actorRunFirstStep, mergeInputs, hc, hd, hu]
  · rw [dictLookup_dictUnion, dictLookup_append]

/-- Witness for C1_merge_ctor_wins at concrete non-empty inputs. -/
theorem C1_merge_ctor_wins_witness :
    actorRunFirstStep (some [("maxPages", 2)]) (some [("maxPages", (1 : Nat))])
        = ActorRunStep.callActor (dictUnion [("maxPages", 2)] [("maxPages", 1)]) ∧
    dictLookup (dictUnion [("maxPages", 2)] [("maxPages", (1 : Nat))]) "maxPages"
        = dictLookup ([("maxPages", (1 : Nat))] ++ [("maxPages", 2)]) "maxPages" :=
  C1_merge_ctor_wins [("maxPages", 2)] [("maxPages", 1)] (by decide) (by decide) "maxPages"

/-- C2, code bug: with stored task input binding key `"a"` and call-time
task input binding key `"b"`, `ApifyDatasetFromTaskCall.run` passes the
stored input alone (`task_input=self.task_input`) to the remote task
trigger, so the call-time override key `"b"` is absent from the triggered
input even though the actor-style merge of the two inputs defines it. -/
theorem C2_task_ignores_call_input :
    taskRunFirstStep (some [("b", 2)]) (some [("a", (1 : Nat))])
        = TaskRunStep.callTask (some [("a", 1)]) ∧
    dictUnion [("b", 2)] [("a", (1 : Nat))] = [("b", 2), ("a", 1)] ∧
    dictLookup [("a", (1 : Nat))] "b" = none ∧
    dictLookup [("b", 2), ("a", (1 : Nat))] "b" = some 2 := by
  decide

/-- C6, counterexample: merging an empty call-time dict with an absent
constructor-time input does not yield the call-time input unchanged:
`_merge_inputs` returns `input1 or input2`, which is the absent value,
not the empty dict. -/
theorem C6_identity_counterexample :
    mergeInputs (some ([] : PyDict Nat)) none = none ∧
      (none : Option (PyDict Nat)) ≠ some [] := by
  decide

/-- C6, amended: merging an empty or absent call-time input with any
constructor-time input yields the constructor-time input unchanged;
merging a non-empty call-time input with an empty or absent
constructor-time input yields the call-time input unchanged; merging two
empty/absent inputs yields a falsy result (absent or empty), which the run
methods treat as absent. -/
theorem C6_merge_identity {V : Type} (c call i1 i2 : Option (PyDict V))
    (hcall : pyTruthy call = true) (h1 : pyTruthy i1 = false) (h2 : pyTruthy i2 = false) :
    mergeInputs none c = c ∧
    mergeInputs (some []) c = c ∧
    mergeInputs call none = call ∧
    mergeInputs call (some []) = call ∧
    pyTruthy (mergeInputs i1 i2) = false := by
  refine ⟨?_, ?_, ?_, ?_, ?_⟩
  · cases c <;> simp [mergeInputs, pyOr, pyTruthy]
  · cases c <;> simp [mergeInputs, pyOr, pyTruthy]
  · cases call with
    | none => simp [pyTruthy] at hcall
    | some d =>
        simp only [pyTruthy, Bool.not_eq_true'] at hcall
        simp [mergeInputs, pyOr, pyTruthy, hcall]
  · cases call with
    | none => simp [pyTruthy] at hcall
    | some d =>
        simp only [pyTruthy, Bool.not_eq_true'] at hcall
        simp [mergeInputs, pyOr, pyTruthy, hcall]
  · cases i1 with
    | none =>
        cases i2 with
        | none => simp [mergeInputs, pyOr, pyTruthy]
        | some d2 => simpa [mergeInputs, pyOr, pyTruthy] using h2
    | some d1 =>
        simp only [pyTruthy, Bool.not_eq_true'] at h1
        cases i2 with
        | none => simp [mergeInputs, pyOr, pyTruthy, h1]
        | some d2 =>
            simp only [pyTruthy, Bool.not_eq_true'] at h2
            simp [mergeInputs, pyOr, pyTruthy, h1, h2]

/-- Witness for C6_merge_identity at concrete inputs. -/
theorem C6_merge_identity_witness :
    mergeInputs none (some [("a", (1 : Nat))]) = some [("a", 1)] ∧
    mergeInputs (some []) (some [("a", (1 : Nat))]) = some [("a", 1)] ∧
    mergeInputs (some [("b", (2 : Nat))]) none = some [("b", 2)] ∧
    mergeInputs (some [("b", (2 : Nat))]) (some []) = some [("b", 2)] ∧
    pyTruthy (mergeInputs (none : Option (PyDict Nat)) (some [])) = false :=
  C6_merge_identity (some [("a", 1)]) (some [("b", 2)]) none (some [])
    (by decide) (by decide) (by decide)

/-- C9: calling run with an empty dict as call-time input behaves exactly
as calling run with no call-time input at all, for both the actor and the
task variants: the non-empty constructor-time input becomes the effective
input and the step taken is the remote call, not the configuration error. -/
theorem C9_empty_call_input {V : Type} (ctor : PyDict V) (hne : ctor ≠ []) :
    mergeInputs (some ([] : PyDict V)) (some ctor) = mergeInputs none (some ctor) ∧
    actorRunFirstStep (some ([] : PyDict V)) (some ctor) = actorRunFirstStep none (some ctor) ∧
    actorRunFirstStep (some ([] : PyDict V)) (some ctor) = ActorRunStep.callActor ctor ∧
    taskRunFirstStep (some ([] : PyDict V)) (some ctor) = taskRunFirstStep none (some ctor) ∧
    taskRunFirstStep (some ([] : PyDict V)) (some ctor) = TaskRunStep.callTask (some ctor) := by
  have hc : ctor.isEmpty = false := by
    cases ctor with
    | nil => exact absurd rfl hne
    | cons a t => rfl
  refine ⟨?_, ?_, ?_, ?_, ?_⟩ <;>
    simp [mergeInputs, actorRunFirstStep, taskRunFirstStep, pyOr, pyTruthy, hc]

/-- Witness for C9_empty_call_input at a concrete constructor input. -/
theorem C9_empty_call_input_witness :
    mergeInputs (some ([] : PyDict Nat)) (some [("a", 1)]) = mergeInputs none (some [("a", 1)]) ∧
    actorRunFirstStep (some ([] : PyDict Nat)) (some [("a", 1)]) = actorRunFirstStep none (some [("a", 1)]) ∧
    actorRunFirstStep (some ([] : PyDict Nat)) (some [("a", 1)]) = ActorRunStep.callActor [("a", 1)] ∧
    taskRunFirstStep (some ([] : PyDict Nat)) (some [("a", 1)]) = taskRunFirstStep none (some [("a", 1)]) ∧
    taskRunFirstStep (some ([] : PyDict Nat)) (some [("a", 1)]) = TaskRunStep.callTask (some [("a", 1)]) :=
  C9_empty_call_input [("a", 1)] (by decide)

/-- C10: on a dataset with zero records, `ApifyDatasetLoader.run` succeeds
with an empty documents list, and the result does not depend on the mapping
function, which is therefore never invoked. -/
theorem C10_empty_dataset {Item Doc : Type} (fetch : DatasetRequest → List Item)
    (dataset_id : String) (f g : Item → Doc)
    (hempty : fetch ⟨dataset_id, true⟩ = []) :
    (datasetLoaderRun fetch dataset_id f).documents = [] ∧
    (datasetLoaderRun fetch dataset_id f).documents.length = 0 ∧
    (datasetLoaderRun fetch dataset_id f).documents
        = (datasetLoaderRun fetch dataset_id g).documents := by
  refine ⟨?_, ?_, ?_⟩ <;> simp [datasetLoaderRun, hempty]

/-- Witness for C10_empty_dataset on a concrete empty dataset. -/
theorem C10_empty_dataset_witness :
    (datasetLoaderRun (fun _ => ([] : List Nat)) "ds" Nat.succ).documents = [] ∧
    (datasetLoaderRun (fun _ => ([] : List Nat)) "ds" Nat.succ).documents.length = 0 ∧
    (datasetLoaderRun (fun _ => ([] : List Nat)) "ds" Nat.succ).documents
        = (datasetLoaderRun (fun _ => ([] : List Nat)) "ds" id).documents :=
  C10_empty_dataset (fun _ => []) "ds" Nat.succ id rfl

/-- C3: on a non-empty dataset, `ApifyDatasetLoader.run` returns a
documents list of the same length as the fetched dataset whose entry at
every index `i` is the mapping function applied to the record at index `i`,
order preserved. -/
theorem C3_loader_map_order {Item Doc : Type} (fetch : DatasetRequest → List Item)
    (dataset_id : String) (f : Item → Doc)
    (hne : fetch ⟨dataset_id, true⟩ ≠ []) (i : Nat) :
    (datasetLoaderRun fetch dataset_id f).documents.length
        = (fetch ⟨dataset_id, true⟩).length ∧
    (datasetLoaderRun fetch dataset_id f).documents.get? i
        = ((fetch ⟨dataset_id, true⟩).get? i).map f := by
  refine ⟨?_, ?_⟩ <;> simp [datasetLoaderRun]

/-- Witness for C3_loader_map_order on a concrete two-record dataset. -/
theorem C3_loader_map_order_witness :
    (datasetLoaderRun (fun _ => [5, (7 : Nat)]) "ds" Nat.succ).documents.length
        = ((fun _ => [5, (7 : Nat)]) (⟨"ds", true⟩ : DatasetRequest)).length ∧
    (datasetLoaderRun (fun _ => [5, (7 : Nat)]) "ds" Nat.succ).documents.get? 1
        = (((fun _ => [5, (7 : Nat)]) (⟨"ds", true⟩ : DatasetRequest)).get? 1).map Nat.succ :=
  C3_loader_map_order (fun _ => [5, 7]) "ds" Nat.succ (by decide) 1

/-- C4: when neither the explicit token argument nor the environment
fallback is truthy, both constructors return the configuration error — an
`.error` result that carries no client, so no remote client is constructed;
and when the effective input at call time is falsy, both run methods take
the configuration-error step rather than the remote-call step, so no
network access occurs. -/
theorem C4_config_errors {V : Type} (marker : String) (tok env : Option String)
    (mkClient : String → ApifyClient)
    (run_in ctor_in task_in task_ctor : Option (PyDict V))
    (htok : pyStrTruthy (pyStrOr tok env) = false)
    (hrun : pyTruthy (mergeInputs run_in ctor_in) = false)
    (htask : pyTruthy (pyOr task_in task_ctor) = false) :
    initActorCall marker tok env mkClient
        = Except.error (ApifyError.configError tokenNotFoundMsg) ∧
    initTaskCall marker tok env mkClient
        = Except.error (ApifyError.configError tokenNotFoundMsg) ∧
    actorRunFirstStep run_in ctor_in = ActorRunStep.configError ∧
    taskRunFirstStep task_in task_ctor = TaskRunStep.configError := by
  refine ⟨?_, ?_, ?_, ?_⟩
  · rcases h : pyStrOr tok env with _ | t
    · simp [initActorCall, h]
    · rw [h] at htok
      simp only [pyStrTruthy] at htok
      have ht := bnot_eq_false htok
      simp [initActorCall, h, ht]
  · rcases h : pyStrOr tok env with _ | t
    · simp [initTaskCall, h]
    · rw [h] at htok
      simp only [pyStrTruthy] at htok
      have ht := bnot_eq_false htok
      simp [initTaskCall, h, ht]
  · rcases h : mergeInputs run_in ctor_in with _ | d
    · simp [actorRunFirstStep, h]
    · rw [h] at hrun
      simp only [pyTruthy] at hrun
      have hd := bnot_eq_false hrun
      simp [actorRunFirstStep, h, hd]
  · simp [taskRunFirstStep, htask]

/-- Witness for C4_config_errors with no token anywhere and no inputs. -/
theorem C4_config_errors_witness :
    initActorCall "marker" none none (fun t => ⟨t, none⟩)
        = Except.error (ApifyError.configError tokenNotFoundMsg) ∧
    initTaskCall "marker" none none (fun t => ⟨t, none⟩)
        = Except.error (ApifyError.configError tokenNotFoundMsg) ∧
    actorRunFirstStep (none : Option (PyDict Nat)) none = ActorRunStep.configError ∧
    taskRunFirstStep (none : Option (PyDict Nat)) none = TaskRunStep.configError :=
  C4_config_errors "marker" none none (fun t => ⟨t, none⟩) none none none none
    (by decide) (by decide) (by decide)

/-- C5: a falsy (absent or empty) trigger-call response takes the
no-response error step and a truthy response lacking the
`defaultDatasetId` field takes the no-dataset error step; in both cases the
step is not a dataset load — no `DatasetLoader` is constructed and no fetch
is attempted — and the full actor and task run pipelines return the
corresponding error naming their identifier. -/
theorem C5_response_validation {V Item Doc : Type} (actor_id task_id : String)
    (run_in ctor_in : Option (PyDict V)) (input : PyDict V)
    (callActor : PyDict V → Option (PyDict String))
    (task_in task_ctor : Option (PyDict V)) (tinput : Option (PyDict V))
    (callTask : Option (PyDict V) → Option (PyDict String))
    (fetch : DatasetRequest → List Item) (f : Item → Doc)
    (resp : Option (PyDict String))
    (hstep : actorRunFirstStep run_in ctor_in = ActorRunStep.callActor input)
    (hresp : callActor input = resp)
    (htstep : taskRunFirstStep task_in task_ctor = TaskRunStep.callTask tinput)
    (htresp : callTask tinput = resp)
    (hbad : pyTruthy resp = false ∨
      (pyTruthy resp = true ∧ respLookup resp "defaultDatasetId" = none)) :
    handleRunResponse resp
        = (if pyTruthy resp then ResponseStep.noDatasetError else ResponseStep.noResponseError) ∧
    isLoadStep (handleRunResponse resp) = false ∧
    actorCallRun actor_id run_in ctor_in callActor fetch f
        = Except.error
            (if pyTruthy resp then ApifyError.noDataset actor_id else ApifyError.noResponse actor_id) ∧
    taskCallRun task_id task_in task_ctor callTask fetch f
        = Except.error
            (if pyTruthy resp then ApifyError.noDataset task_id else ApifyError.noResponse task_id) := by
  have hh : handleRunResponse resp
      = (if pyTruthy resp then ResponseStep.noDatasetError else ResponseStep.noResponseError) := by
    rcases hbad with hb | ⟨ht, hl⟩
    · cases resp with
      | none => simp [handleRunResponse, pyTruthy]
      | some r =>
          simp only [pyTruthy] at hb
          have hre := bnot_eq_false hb
          simp [handleRunResponse, pyTruthy, hre]
    · cases resp with
      | none => simp [pyTruthy] at ht
      | some r =>
          simp only [pyTruthy] at ht
          have hre : r.isEmpty = false := by
            cases hre : r.isEmpty with
            | false => rfl
            | true => rw [hre] at ht; simp at ht
          simp only [respLookup] at hl
          simp [handleRunResponse, pyTruthy, hre, hl]
  refine ⟨hh, ?_, ?_, ?_⟩
  · rw [hh]
    cases hb : pyTruthy resp <;> simp [isLoadStep]
  · simp only [actorCallRun.eq_def, hstep, hresp, hh]
    cases hb : pyTruthy resp <;> simp
  · simp only [taskCallRun.eq_def, htstep, htresp, hh]
    cases hb : pyTruthy resp <;> simp

/-- Witness for C5_response_validation: valid inputs, remote calls
answering with an empty response. -/
theorem C5_response_validation_witness :
    handleRunResponse (some [])
        = (if pyTruthy (some ([] : PyDict String)) then ResponseStep.noDatasetError
           else ResponseStep.noResponseError) ∧
    isLoadStep (handleRunResponse (some [])) = false ∧
    actorCallRun "actor1" (some [("a", (1 : Nat))]) none (fun _ => some [])
        (fun _ => ([] : List Nat)) id
        = Except.error
            (if pyTruthy (some ([] : PyDict String)) then ApifyError.noDataset "actor1"
             else ApifyError.noResponse "actor1") ∧
    taskCallRun "task1" (none : Option (PyDict Nat)) (some [("a", 1)]) (fun _ => some [])
        (fun _ => ([] : List Nat)) id
        = Except.error
            (if pyTruthy (some ([] : PyDict String)) then ApifyError.noDataset "task1"
             else ApifyError.noResponse "task1") :=
  C5_response_validation "actor1" "task1" (some [("a", 1)]) none [("a", 1)]
    (fun _ => some []) none (some [("a", 1)]) (some [("a", 1)])
    (fun _ => some []) (fun _ => ([] : List Nat)) id (some [])
    (by decide) rfl (by decide) rfl (Or.inl (by decide))

/-- C7: every dataset fetch issued by `ApifyDatasetLoader.run` carries
`clean=True`, as a fixed value with no caller override: it holds for the
direct loader and for the request embedded in any successful actor-call or
task-call run. -/
theorem C7_clean_flag_fixed {V Item Doc : Type} (fetch : DatasetRequest → List Item)
    (dataset_id actor_id task_id : String) (f : Item → Doc)
    (run_in ctor_in task_in task_ctor : Option (PyDict V))
    (callActor : PyDict V → Option (PyDict String))
    (callTask : Option (PyDict V) → Option (PyDict String))
    (r1 r2 : LoaderRunResult Doc)
    (ha : actorCallRun actor_id run_in ctor_in callActor fetch f = Except.ok r1)
    (ht : taskCallRun task_id task_in task_ctor callTask fetch f = Except.ok r2) :
    (datasetLoaderRun fetch dataset_id f).request.clean = true ∧
    r1.request.clean = true ∧ r2.request.clean = true := by
  refine ⟨rfl, ?_, ?_⟩
  · rcases h1 : actorRunFirstStep run_in ctor_in with _ | input
    · simp only [actorCallRun.eq_def, h1] at ha
      exact Except.noConfusion ha
    · simp only [actorCallRun.eq_def, h1] at ha
      rcases h2 : handleRunResponse (callActor input) with _ | _ | dsid
      · rw [h2] at ha; exact Except.noConfusion ha
      · rw [h2] at ha; exact Except.noConfusion ha
      · rw [h2] at ha
        injection ha with h3
        rw [← h3]
        rfl
  · rcases h1 : taskRunFirstStep task_in task_ctor with _ | tinput
    · simp only [taskCallRun.eq_def, h1] at ht
      exact Except.noConfusion ht
    · simp only [taskCallRun.eq_def, h1] at ht
      rcases h2 : handleRunResponse (callTask tinput) with _ | _ | dsid
      · rw [h2] at ht; exact Except.noConfusion ht
      · rw [h2] at ht; exact Except.noConfusion ht
      · rw [h2] at ht
        injection ht with h3
        rw [← h3]
        rfl

/-- Witness for C7_clean_flag_fixed on concrete successful runs. -/
theorem C7_clean_flag_fixed_witness :
    (datasetLoaderRun (fun _ => ([] : List Nat)) "ds" id).request.clean = true ∧
    (⟨⟨"d1", true⟩, []⟩ : LoaderRunResult Nat).request.clean = true ∧
    (⟨⟨"d2", true⟩, []⟩ : LoaderRunResult Nat).request.clean = true :=
  C7_clean_flag_fixed (fun _ => ([] : List Nat)) "ds" "actor1" "task1" id
    (some [("a", (1 : Nat))]) none none (some [("a", 1)])
    (fun _ => some [("defaultDatasetId", "d1")])
    (fun _ => some [("defaultDatasetId", "d2")])
    ⟨⟨"d1", true⟩, []⟩ ⟨⟨"d2", true⟩, []⟩ rfl rfl

/-- C8: at construction, when the remote client exposes an httpx client,
the attribution marker is appended to its existing user-agent value
preceded by the literal `"; "` and the rest of the client is unchanged;
when no httpx client is exposed, the client is returned unchanged and no
error is raised. -/
theorem C8_user_agent_patch (marker : String) (c c2 : ApifyClient) (h : HttpxClient)
    (hc : c.httpxClient = some h) (hc2 : c2.httpxClient = none) :
    (patchUserAgent marker c).httpxClient = some ⟨h.userAgent ++ "; " ++ marker⟩ ∧
    (patchUserAgent marker c).token = c.token ∧
    patchUserAgent marker c2 = c2 := by
  refine ⟨?_, ?_, ?_⟩ <;> simp [patchUserAgent, hc, hc2]

/-- Witness for C8_user_agent_patch on concrete clients. -/
theorem C8_user_agent_patch_witness :
    (patchUserAgent "apify-haystack" ⟨"tok1", some ⟨"httpx/1.0"⟩⟩).httpxClient
        = some ⟨"httpx/1.0" ++ "; " ++ "apify-haystack"⟩ ∧
    (patchUserAgent "apify-haystack" ⟨"tok1", some ⟨"httpx/1.0"⟩⟩).token
        = (⟨"tok1", some ⟨"httpx/1.0"⟩⟩ : ApifyClient).token ∧
    patchUserAgent "apify-haystack" ⟨"tok2", none⟩ = ⟨"tok2", none⟩ :=
  C8_user_agent_patch "apify-haystack" ⟨"tok1", some ⟨"httpx/1.0"⟩⟩ ⟨"tok2", none⟩
    ⟨"httpx/1.0"⟩ rfl rfl

end ApifyHaystack
